import Mathlib

/-!
Shallow embedding of `MyAudioRealtimeElement`
(src/myAudioRealtimeElement.js, with the earlier variants under
src/unnamed/). The element orchestrates a realtime audio session:
media capture (`getAudioAccess`), ephemeral-credential acquisition
(`requestEphemeralKey`), RTCPeerConnection setup and SDP offer/answer
signaling (`startRealtime`), transcript updates (`updateTranscript`),
mute toggling (`toggleMute`) and teardown (`cancelChat`).

Browser primitives (getUserMedia, fetch, JSON.parse, RTCPeerConnection)
are modelled as explicit inputs/outputs; the element itself is a pure
state transformer over those inputs. Awaits are suspension points: the
single-threaded event loop may run `cancelChat` only there, which the
executor models with an explicit cancellation schedule.
-/

/-- A JavaScript exception as observed by catch blocks: `err.name` and
`err.message` (src lines 214-216 format them as `name - message`). -/
structure JsError where
  name : String
  message : String
deriving DecidableEq, Repr

/-- The nested secret of a credential payload: `client_secret.value`
(src line 159). -/
structure ClientSecret where
  value : String
deriving DecidableEq, Repr

/-- Decoded ephemeral-key payload. JS objects may lack a field
(`none`), and a present string field is falsy exactly when empty, which
matters for the truthiness test `if (ephemeralData.error)` at src line
155 and is captured by `errTruthy` below. -/
structure EphemeralPayload where
  error : Option String
  client_secret : Option ClientSecret
deriving DecidableEq, Repr

/-- JS truthiness of the optional string field: absent or empty string
is falsy, any non-empty string is truthy. -/
def errTruthy (o : Option String) : Bool :=
  match o with
  | none => false
  | some s => s ≠ ""

/-- A fetch Response as consumed by the element: numeric status, status
text and body text (src lines 196-208 and 226-232). -/
structure HttpResponse where
  status : Nat
  statusText : String
  body : String
deriving DecidableEq, Repr

/-- `Response.ok` per the fetch standard: status in the inclusive range
200-299. -/
def HttpResponse.ok (r : HttpResponse) : Bool :=
  200 ≤ r.status && r.status ≤ 299

/-- A MediaStreamTrack: its kind (getUserMedia with audio:true yields
kind "audio"), its `enabled` flag (toggled by `toggleMute`, src line
253) and whether `stop()` has been called (src line 263). -/
structure MediaTrack where
  kind : String
  enabled : Bool
  stopped : Bool
deriving DecidableEq, Repr

/-- A MediaStream is its list of tracks. -/
structure MediaStream where
  tracks : List MediaTrack
deriving DecidableEq, Repr

/-- `stream.getTracks()` (src lines 164, 263). -/
def MediaStream.getTracks (s : MediaStream) : List MediaTrack :=
  s.tracks

/-- `stream.getAudioTracks()` (src line 252). -/
def MediaStream.getAudioTracks (s : MediaStream) : List MediaTrack :=
  s.tracks.filter (fun t => t.kind == "audio")

/-- The peer transport built in `startRealtime` (src lines 163-212):
local/remote session descriptions, how many local tracks were attached
and whether the data channel was opened. -/
structure PeerConnection where
  localDesc : Option String
  remoteDesc : Option String
  attachedTracks : Nat
  dataChannel : Bool
deriving DecidableEq, Repr

/-- A fresh `new RTCPeerConnection()` (src line 163). -/
def PeerConnection.fresh : PeerConnection :=
  { localDesc := none, remoteDesc := none, attachedTracks := 0, dataChannel := false }

/-- Abstract events recorded in program order by the connect pipeline;
used to state temporal claims about when each acquisition starts and
completes relative to transport creation. -/
inductive RtEvent
  | mediaStart
  | mediaDone
  | credStart
  | credDone
  | pcCreated
  | offerCreated
  | localDescSet
  | sdpSent
  | sdpAnswer
  | remoteDescSet
deriving DecidableEq, Repr

/-- The element state: the fields of `MyAudioRealtimeElement`
(`ephemeralKeyFunction` presence, `localStream`, `pc`, src lines 8-12)
together with its observable sinks: the `#err` text (assigned, last
write wins), the append-only `#logArea` text, the `#transcript` text.
`authHeader` records the Authorization header of the signaling fetch,
`sdpFetchCount` how many signaling POSTs were issued, and `events` the
program-order event trace. -/
structure ElementState where
  hasKeyFn : Bool
  localStream : Option MediaStream
  pc : Option PeerConnection
  err : String
  log : String
  transcript : String
  authHeader : Option String
  sdpFetchCount : Nat
  events : List RtEvent
deriving DecidableEq, Repr

/-- The initial element state after construction (src lines 6-13):
no stream, no transport, empty sinks. -/
def initialState (hasKeyFn : Bool) : ElementState :=
  { hasKeyFn := hasKeyFn, localStream := none, pc := none, err := ""
    log := "", transcript := "", authHeader := none, sdpFetchCount := 0
    events := [] }

/-- Environment of one connect attempt: the outcomes the browser hands
back at each await. `injectedResult` is what the injected
`ephemeralKeyFunction` resolves to; `fallbackResponse`/`fallbackPayload`
are the HTTP fallback response and its decoded JSON body; `mediaResult`
is the `getUserMedia` outcome; `offerSdp` the created offer text;
`sdpResponse` the signaling endpoint response. -/
structure Env where
  injectedResult : EphemeralPayload
  fallbackResponse : HttpResponse
  fallbackPayload : EphemeralPayload
  mediaResult : Except JsError MediaStream
  offerSdp : String
  sdpResponse : HttpResponse
deriving Repr

/-- `requestEphemeralKey` (src lines 221-233): if an ephemeral key
function was injected, return its result unmodified; otherwise GET the
fallback endpoint, throw `HTTP error: statusText` on a non-ok response,
and return the decoded JSON body on success. -/
def requestEphemeralKey (hasKeyFn : Bool) (env : Env) : Except JsError EphemeralPayload :=
  if hasKeyFn then
    .ok env.injectedResult
  else if env.fallbackResponse.ok then
    .ok env.fallbackPayload
  else
    .error { name := "Error", message := "HTTP error: " ++ env.fallbackResponse.statusText }

/-- `cancelChat` (src lines 260-272): if a stream is held, stop its
tracks, drop it and log; if a transport is held, close it, drop it and
log. Each branch is independent and skipped when nothing is held. -/
def cancelChat (st : ElementState) : ElementState :=
  let st1 :=
    match st.localStream with
    | some _ => { st with localStream := none, log := st.log ++ "Audio stream canceled.\n" }
    | none => st
  match st1.pc with
  | some _ => { st1 with pc := none, log := st1.log ++ "RTCPeerConnection closed.\n" }
  | none => st1

/-- Engine message of the TypeError thrown by reading `.value` of an
undefined `client_secret` (src line 159); the exact text is
engine-specific, only its occurrence matters. -/
def undefinedValueMsg : String := "Cannot read properties of undefined"

/-- Engine message of the TypeError thrown by calling `getTracks` on a
null `localStream` (src line 164); exact text engine-specific. -/
def nullGetTracksMsg : String := "Cannot read properties of null"

/-- Body of `startRealtime` (src lines 145-218) from the point where
the stream guard has passed, resumed after the `requestEphemeralKey`
await. `cancelDuringKey` models `cancelChat` running on the event loop
while that await is pending. Every throw lands in the catch at src
lines 214-217, which writes `Realtime error: name - message`. -/
def startRealtimeAfterGuard (env : Env) (cancelDuringKey : Bool) (st : ElementState) : ElementState :=
  let st := if cancelDuringKey then cancelChat st else st
  let st := { st with events := st.events ++ [RtEvent.credStart] }
  match requestEphemeralKey st.hasKeyFn env with
  | .error e =>
      { st with err := "Realtime error: " ++ e.name ++ " - " ++ e.message }
  | .ok payload =>
      let st := { st with events := st.events ++ [RtEvent.credDone] }
      if errTruthy payload.error then
        { st with err := "Failed ephemeral key: " ++ payload.error.getD "" }
      else
        match payload.client_secret with
        | none =>
            { st with err := "Realtime error: TypeError - " ++ undefinedValueMsg }
        | some cs =>
            let ephemeralKey := cs.value
            let st := { st with log := st.log ++ "Got ephemeral key\n" }
            let st := { st with pc := some PeerConnection.fresh
                                events := st.events ++ [RtEvent.pcCreated] }
            match st.localStream with
            | none =>
                { st with err := "Realtime error: TypeError - " ++ nullGetTracksMsg }
            | some stream =>
                let pc1 : PeerConnection :=
                  { PeerConnection.fresh with
                      attachedTracks := stream.getTracks.length, dataChannel := true }
                let pc2 : PeerConnection := { pc1 with localDesc := some env.offerSdp }
                let st := { st with pc := some pc2
                                    log := st.log ++ "Created SDP offer\n"
                                    events := st.events ++
                                      [RtEvent.offerCreated, RtEvent.localDescSet] }
                let st := { st with authHeader := some ("Bearer " ++ ephemeralKey)
                                    sdpFetchCount := st.sdpFetchCount + 1
                                    events := st.events ++ [RtEvent.sdpSent] }
                if env.sdpResponse.ok then
                  let pc3 : PeerConnection := { pc2 with remoteDesc := some env.sdpResponse.body }
                  { st with pc := some pc3
                            log := st.log ++ "Received answer SDP\n" ++
                              "Connected to OpenAI Realtime!\n"
                            events := st.events ++ [RtEvent.sdpAnswer, RtEvent.remoteDescSet] }
                else
                  { st with err := "Failed to get answer SDP: " ++
                      toString env.sdpResponse.status ++ " - " ++ env.sdpResponse.statusText }

/-- `startRealtime` (src lines 145-218): the guard `if
(!this.localStream) throw` runs before the credential await; the thrown
error is caught by the catch at lines 214-217. -/
def startRealtime (env : Env) (cancelDuringKey : Bool) (st : ElementState) : ElementState :=
  match st.localStream with
  | none => { st with err := "Realtime error: Error - Audio stream not available." }
  | some _ => startRealtimeAfterGuard env cancelDuringKey st

/-- Cancellation schedule for one attempt: whether `cancelChat` runs
while the `getUserMedia` await is pending, and whether it runs while
the `requestEphemeralKey` await is pending. -/
structure CancelSchedule where
  duringMedia : Bool
  duringKey : Bool
deriving DecidableEq, Repr

/-- No cancellation during the attempt. -/
def noCancel : CancelSchedule := { duringMedia := false, duringKey := false }

/-- `handleClick` (src lines 106-116): clear `#err`, await
`getAudioAccess` (src lines 119-142: getUserMedia, store the stream,
log), then await `startRealtime`. A getUserMedia rejection is rethrown
by `getAudioAccess` and caught by `handleClick`, whose catch overwrites
`#err` with `Error: message`. -/
def runAttempt (env : Env) (sched : CancelSchedule) (hasKeyFn : Bool) : ElementState :=
  let st := initialState hasKeyFn
  let st := { st with err := "", events := st.events ++ [RtEvent.mediaStart] }
  let st := if sched.duringMedia then cancelChat st else st
  match env.mediaResult with
  | .error e => { st with err := "Error: " ++ e.message }
  | .ok stream =>
      let st := { st with localStream := some stream
                          log := st.log ++ "Got audio stream successfully.\n"
                          events := st.events ++ [RtEvent.mediaDone] }
      startRealtime env sched.duringKey st

/-- Flip of one track as performed by the `forEach` body at src line
253, which only ever runs on the audio tracks. -/
def flipAudioTrack (t : MediaTrack) : MediaTrack :=
  if t.kind == "audio" then { t with enabled := !t.enabled } else t

/-- Effect of `toggleMute` on the tracks of the held stream: every
audio track has its `enabled` flag negated, other tracks are untouched
(src lines 252-255 iterate `getAudioTracks()` mutating the shared track
objects). -/
def flipAudio (ts : List MediaTrack) : List MediaTrack :=
  ts.map flipAudioTrack

/-- The mute-button label after `toggleMute`: the `forEach` body writes
`button.textContent` once per audio track, so the final label comes
from the last audio track's new `enabled` state; with no audio tracks
the label is untouched (src line 254). -/
def muteLabel (newTracks : List MediaTrack) (btn : String) : String :=
  match (newTracks.filter (fun t => t.kind == "audio")).getLast? with
  | none => btn
  | some t => if t.enabled then "Mute" else "Unmute"

/-- `toggleMute` (src lines 250-257): no-op without a held stream;
otherwise flip every audio track and update the button label. The JS
method returns undefined, so the model returns the new element state
and the new button label, its only outputs. -/
def toggleMute (st : ElementState) (btn : String) : ElementState × String :=
  match st.localStream with
  | none => (st, btn)
  | some s =>
      ({ st with localStream := some { tracks := flipAudio s.tracks } },
       muteLabel (flipAudio s.tracks) btn)

/-- A decoded data-channel event as consumed by the handler at src
lines 180-184: its `type` discriminator and optional `delta` string. -/
structure DcEvent where
  type : String
  delta : Option String
deriving DecidableEq, Repr

/-- `updateTranscript` (src lines 236-247): append the text to the
`#transcript` content (the element-creation branch only materialises
the sink and does not change the appended text). -/
def updateTranscript (text : String) (st : ElementState) : ElementState :=
  { st with transcript := st.transcript ++ text }

/-- The data-channel `onmessage` handler (src lines 178-188).
`JSON.parse` is modelled by the `parsed` input: `none` when the raw
data is not valid JSON, in which case the catch block appends the raw
text to the log and nothing else happens — the handler never rethrows.
On a successful decode the event type is logged and, when the type is
`response.text.delta` and the delta is truthy (present and non-empty),
the delta is appended to the transcript. -/
def dcOnMessage (parsed : Option DcEvent) (rawData : String) (st : ElementState) : ElementState :=
  match parsed with
  | none =>
      { st with log := st.log ++ "Received non-JSON message: " ++ rawData ++ "\n" }
  | some ev =>
      let st := { st with log := st.log ++ "Data channel event: " ++ ev.type ++ "\n" }
      if ev.type == "response.text.delta" && errTruthy ev.delta then
        updateTranscript (ev.delta.getD "") st
      else
        st

/-- Program-order event trace of the success path of `startRealtime`
in the part_001 variant (src/unnamed/part_001 lines 49-121): it first
creates `audioPromise = getUserMedia(...)` (line 57), then immediately
starts `ephemeralPromise = this.requestEphemeralKey()` (line 60), and
only then awaits the audio stream (line 63) and the credential (line
68) before building the RTCPeerConnection (line 77), the offer (lines
97-98), the signaling POST (line 102) and the remote description
(line 118). -/
def part001SuccessEvents : List RtEvent :=
  [RtEvent.mediaStart, RtEvent.credStart, RtEvent.mediaDone, RtEvent.credDone,
   RtEvent.pcCreated, RtEvent.offerCreated, RtEvent.localDescSet,
   RtEvent.sdpSent, RtEvent.sdpAnswer, RtEvent.remoteDescSet]

/-- An attempt state counts as Connected exactly when a transport is
held and the remote description was applied to it (src line 212). -/
def isConnected (st : ElementState) : Bool :=
  match st.pc with
  | some pc => pc.remoteDesc.isSome
  | none => false

/-- A payload carries an `error` field iff the optional field is
present (regardless of the string value). -/
def carriesErrorField (p : EphemeralPayload) : Bool :=
  p.error.isSome

/-- All audio tracks of a stream share the enabled state `e`. -/
def uniformEnabled (s : MediaStream) (e : Bool) : Prop :=
  ∀ t ∈ s.getAudioTracks, t.enabled = e

instance (s : MediaStream) (e : Bool) : Decidable (uniformEnabled s e) :=
  inferInstanceAs (Decidable (∀ t ∈ s.getAudioTracks, t.enabled = e))

/-- The enabled flags of the audio tracks, in order. -/
def audioFlags (s : MediaStream) : List Bool :=
  s.getAudioTracks.map (fun t => t.enabled)

/-- A decoded `response.text.delta` event carrying the delta `hello`,
as in the transcript scenario. -/
def helloDelta : DcEvent := { type := "response.text.delta", delta := some "hello" }

/-- A one-track microphone stream as returned by getUserMedia with
audio:true, holding a single enabled audio track. -/
def micStream : MediaStream :=
  { tracks := [{ kind := "audio", enabled := true, stopped := false }] }

/-- Environment of a fully successful connect attempt through the
injected credential strategy. -/
def envSeq : Env :=
  { injectedResult := { error := none, client_secret := some { value := "ek-seq" } }
    fallbackResponse := { status := 200, statusText := "OK", body := "{}" }
    fallbackPayload := { error := none, client_secret := some { value := "ek-seq" } }
    mediaResult := .ok micStream
    offerSdp := "v=0 offer"
    sdpResponse := { status := 200, statusText := "OK", body := "v=0 answer" } }

/-- Environment identical to a successful attempt, used for the
cancellation-race scenarios. -/
def envRace : Env :=
  { injectedResult := { error := none, client_secret := some { value := "ek-race" } }
    fallbackResponse := { status := 200, statusText := "OK", body := "{}" }
    fallbackPayload := { error := none, client_secret := some { value := "ek-race" } }
    mediaResult := .ok micStream
    offerSdp := "v=0 offer"
    sdpResponse := { status := 200, statusText := "OK", body := "v=0 answer" } }

/-- Environment whose credential payload carries an `error` field
holding the empty string (a falsy value for the truthiness test at src
line 155) next to a valid `client_secret`. -/
def envEmptyError : Env :=
  { injectedResult := { error := some "", client_secret := some { value := "ek-empty" } }
    fallbackResponse := { status := 200, statusText := "OK", body := "{}" }
    fallbackPayload := { error := some "", client_secret := some { value := "ek-empty" } }
    mediaResult := .ok micStream
    offerSdp := "v=0 offer"
    sdpResponse := { status := 200, statusText := "OK", body := "v=0 answer" } }

/-- Environment whose credential payload carries a non-empty `error`
field. -/
def envRejected : Env :=
  { injectedResult := { error := some "denied", client_secret := none }
    fallbackResponse := { status := 200, statusText := "OK", body := "{}" }
    fallbackPayload := { error := some "denied", client_secret := none }
    mediaResult := .ok micStream
    offerSdp := "v=0 offer"
    sdpResponse := { status := 200, statusText := "OK", body := "v=0 answer" } }

/-- Environment where the HTTP fallback credential endpoint answers
401 Unauthorized. -/
def env401 : Env :=
  { injectedResult := { error := none, client_secret := none }
    fallbackResponse := { status := 401, statusText := "Unauthorized", body := "" }
    fallbackPayload := { error := none, client_secret := none }
    mediaResult := .ok micStream
    offerSdp := "v=0 offer"
    sdpResponse := { status := 200, statusText := "OK", body := "v=0 answer" } }

/-- Environment where the signaling endpoint answers 500. -/
def env500 : Env :=
  { injectedResult := { error := none, client_secret := some { value := "ek-500" } }
    fallbackResponse := { status := 200, statusText := "OK", body := "{}" }
    fallbackPayload := { error := none, client_secret := some { value := "ek-500" } }
    mediaResult := .ok micStream
    offerSdp := "v=0 offer"
    sdpResponse := { status := 500, statusText := "Internal Server Error", body := "" } }

/-- Environment whose credential payload lacks both the `error` and
the `client_secret` field. -/
def envNoSecret : Env :=
  { injectedResult := { error := none, client_secret := none }
    fallbackResponse := { status := 200, statusText := "OK", body := "{}" }
    fallbackPayload := { error := none, client_secret := none }
    mediaResult := .ok micStream
    offerSdp := "v=0 offer"
    sdpResponse := { status := 200, statusText := "OK", body := "v=0 answer" } }

/-- Element state holding a stream whose two audio tracks are in mixed
enabled states. -/
def stMixed : ElementState :=
  { initialState true with
      localStream := some { tracks :=
        [{ kind := "audio", enabled := true, stopped := false },
         { kind := "audio", enabled := false, stopped := false }] } }

/-- Element state holding the one-track microphone stream. -/
def stMic : ElementState :=
  { initialState true with localStream := some micStream }

/-! Helper lemmas about track flipping and the mute label. -/

/-- Flipping a track preserves its kind. -/
theorem flipAudioTrack_kind (t : MediaTrack) : (flipAudioTrack t).kind = t.kind := by
  unfold flipAudioTrack
  split <;> rfl

/-- Flipping a track twice restores it. -/
theorem flipAudioTrack_involution (t : MediaTrack) : flipAudioTrack (flipAudioTrack t) = t := by
  by_cases h : t.kind == "audio" <;> simp [flipAudioTrack, h]

/-- Flipping the tracks of a stream twice restores them. -/
theorem flipAudio_involution (ts : List MediaTrack) : flipAudio (flipAudio ts) = ts := by
  induction ts with
  | nil => rfl
  | cons t ts ih =>
      simp only [flipAudio, List.map_cons] at ih ⊢
      rw [flipAudioTrack_involution, ih]

/-- Flipping preserves the number of tracks. -/
theorem flipAudio_length (ts : List MediaTrack) : (flipAudio ts).length = ts.length := by
  simp [flipAudio]

/-- The audio tracks of a flipped list are the flipped audio tracks. -/
theorem flipAudio_filter (ts : List MediaTrack) :
    (flipAudio ts).filter (fun t => t.kind == "audio") =
      (ts.filter (fun t => t.kind == "audio")).map flipAudioTrack := by
  induction ts with
  | nil => rfl
  | cons t ts ih =>
      simp only [flipAudio, List.map_cons, List.filter_cons]
      rw [flipAudioTrack_kind]
      by_cases h : t.kind == "audio" <;> simp [h] <;> exact ih

/-- The audio enabled flags of a flipped stream are the negations of
the original flags. -/
theorem audioFlags_flip (ts : List MediaTrack) :
    audioFlags { tracks := flipAudio ts } =
      (audioFlags { tracks := ts }).map (fun b => !b) := by
  simp only [audioFlags, MediaStream.getAudioTracks]
  rw [flipAudio_filter, List.map_map, List.map_map]
  apply List.map_congr_left
  intro t ht
  have hk : t.kind == "audio" := (List.mem_filter.mp ht).2
  simp [Function.comp, flipAudioTrack, hk]

/-- When every audio track of the new track list shares the enabled
state `e`, the mute-button label written by the last forEach iteration
is `Mute` for enabled (unmuted) and `Unmute` for disabled. -/
theorem muteLabel_uniform (ts : List MediaTrack) (btn : String) (e : Bool)
    (hne : ts.filter (fun t => t.kind == "audio") ≠ [])
    (hu : ∀ t ∈ ts.filter (fun t => t.kind == "audio"), t.enabled = e) :
    muteLabel ts btn = if e then "Mute" else "Unmute" := by
  unfold muteLabel
  rw [List.getLast?_eq_getLast_of_ne_nil hne]
  simp only [hu _ (List.getLast_mem hne)]

/-- Flipping a stream whose audio tracks uniformly have state `e`
yields audio tracks uniformly in state `!e`. -/
theorem uniformEnabled_flip (s : MediaStream) (e : Bool) (hu : uniformEnabled s e) :
    uniformEnabled { tracks := flipAudio s.tracks } (!e) := by
  intro t ht
  simp only [MediaStream.getAudioTracks] at ht
  rw [flipAudio_filter] at ht
  rcases List.mem_map.mp ht with ⟨t0, ht0, rfl⟩
  have hk : t0.kind == "audio" := (List.mem_filter.mp ht0).2
  have he := hu t0 (by simpa [MediaStream.getAudioTracks] using ht0)
  simp [flipAudioTrack, hk, he]

/-- In any connect attempt, under any cancellation schedule, the
signaling POST of src lines 196-203 is issued at most once — there is
no retry loop anywhere in `startRealtime`. -/
theorem sdpFetchCount_le_one (env : Env) (sched : CancelSchedule) (k : Bool) :
    (runAttempt env sched k).sdpFetchCount ≤ 1 := by
  unfold runAttempt startRealtime startRealtimeAfterGuard cancelChat initialState
  repeat' split <;> try simp

/-! Claim theorems. -/

/-- C1 counterexample: in a concrete fully successful connect attempt
of the current element, media capture completes strictly before
credential acquisition starts (handleClick awaits getAudioAccess before
startRealtime calls requestEphemeralKey, src lines 110-111 and 154), so
the two acquisitions are never pending concurrently — refuting the
claim that they are started without waiting on each other. -/
theorem c1_sequential_acquisition_counterexample :
    isConnected (runAttempt envSeq noCancel true) = true ∧
    (runAttempt envSeq noCancel true).events.indexOf RtEvent.mediaDone <
      (runAttempt envSeq noCancel true).events.indexOf RtEvent.credStart := by
  decide

/-- C1 amended: in the current element every successful connect
attempt acquires sequentially — media capture completes before
credential acquisition starts — and both acquisitions have completed
before the peer transport is created; the concurrent fan-out (credential
acquisition started while media capture is still pending, both complete
before transport creation) holds only in the part_001 variant. -/
theorem c1_acquisition_order_amended (env : Env) (k : Bool) (p : EphemeralPayload)
    (cs : ClientSecret) (stream : MediaStream)
    (hm : env.mediaResult = .ok stream)
    (hk : requestEphemeralKey k env = .ok p)
    (he : errTruthy p.error = false)
    (hcs : p.client_secret = some cs)
    (hok : env.sdpResponse.ok = true) :
    (runAttempt env noCancel k).events =
      [RtEvent.mediaStart, RtEvent.mediaDone, RtEvent.credStart, RtEvent.credDone,
       RtEvent.pcCreated, RtEvent.offerCreated, RtEvent.localDescSet,
       RtEvent.sdpSent, RtEvent.sdpAnswer, RtEvent.remoteDescSet] ∧
    (runAttempt env noCancel k).events.indexOf RtEvent.mediaDone <
      (runAttempt env noCancel k).events.indexOf RtEvent.credStart ∧
    (runAttempt env noCancel k).events.indexOf RtEvent.credDone <
      (runAttempt env noCancel k).events.indexOf RtEvent.pcCreated ∧
    part001SuccessEvents.indexOf RtEvent.credStart <
      part001SuccessEvents.indexOf RtEvent.mediaDone ∧
    part001SuccessEvents.indexOf RtEvent.credDone <
      part001SuccessEvents.indexOf RtEvent.pcCreated := by
  have hev : (runAttempt env noCancel k).events =
      [RtEvent.mediaStart, RtEvent.mediaDone, RtEvent.credStart, RtEvent.credDone,
       RtEvent.pcCreated, RtEvent.offerCreated, RtEvent.localDescSet,
       RtEvent.sdpSent, RtEvent.sdpAnswer, RtEvent.remoteDescSet] := by
    unfold runAttempt startRealtime startRealtimeAfterGuard noCancel initialState
    simp [hm, hk, he, hcs, hok]
  refine ⟨hev, ?_, ?_, by decide, by decide⟩ <;> rw [hev] <;> decide

/-- C1 witness: the amended ordering instantiated on the concrete
successful attempt. -/
theorem c1_acquisition_order_amended_witness :
    (runAttempt envSeq noCancel true).events =
      [RtEvent.mediaStart, RtEvent.mediaDone, RtEvent.credStart, RtEvent.credDone,
       RtEvent.pcCreated, RtEvent.offerCreated, RtEvent.localDescSet,
       RtEvent.sdpSent, RtEvent.sdpAnswer, RtEvent.remoteDescSet] ∧
    (runAttempt envSeq noCancel true).events.indexOf RtEvent.mediaDone <
      (runAttempt envSeq noCancel true).events.indexOf RtEvent.credStart ∧
    (runAttempt envSeq noCancel true).events.indexOf RtEvent.credDone <
      (runAttempt envSeq noCancel true).events.indexOf RtEvent.pcCreated ∧
    part001SuccessEvents.indexOf RtEvent.credStart <
      part001SuccessEvents.indexOf RtEvent.mediaDone ∧
    part001SuccessEvents.indexOf RtEvent.credDone <
      part001SuccessEvents.indexOf RtEvent.pcCreated :=
  c1_acquisition_order_amended envSeq true envSeq.injectedResult
    { value := "ek-seq" } micStream rfl rfl rfl rfl rfl

/-- C2 counterexample: a credential payload carrying the error field
with the empty string (falsy for the truthiness test at src line 155)
is treated as success — the attempt creates a transport, reaches
Negotiating and even Connected, refuting the claim that every payload
carrying an error field stops before Negotiating. -/
theorem c2_error_field_counterexample :
    carriesErrorField envEmptyError.injectedResult = true ∧
    RtEvent.pcCreated ∈ (runAttempt envEmptyError noCancel true).events ∧
    (runAttempt envEmptyError noCancel true).pc ≠ none ∧
    isConnected (runAttempt envEmptyError noCancel true) = true := by
  decide

/-- C2 amended: for every credential payload whose error field is
truthy (present and non-empty), the connect attempt never reaches
Negotiating — no transport is created — and the failure is surfaced on
the error sink as the rejected-credential message of src line 156. -/
theorem c2_truthy_error_never_negotiating (env : Env) (k : Bool) (p : EphemeralPayload)
    (s : String) (stream : MediaStream)
    (hk : requestEphemeralKey k env = .ok p)
    (he : p.error = some s) (hs : s ≠ "")
    (hm : env.mediaResult = .ok stream) :
    (runAttempt env noCancel k).pc = none ∧
    RtEvent.pcCreated ∉ (runAttempt env noCancel k).events ∧
    (runAttempt env noCancel k).err = "Failed ephemeral key: " ++ s := by
  unfold runAttempt startRealtime startRealtimeAfterGuard noCancel initialState
  simp [hm, hk, he, errTruthy, hs]

/-- C2 witness: the amended behaviour on the concrete rejected
payload. -/
theorem c2_truthy_error_never_negotiating_witness :
    (runAttempt envRejected noCancel true).pc = none ∧
    RtEvent.pcCreated ∉ (runAttempt envRejected noCancel true).events ∧
    (runAttempt envRejected noCancel true).err = "Failed ephemeral key: " ++ "denied" :=
  c2_truthy_error_never_negotiating envRejected true envRejected.injectedResult
    "denied" micStream rfl rfl (by decide) rfl

/-- C3: for every non-2xx signaling response the attempt fails with the
error text carrying both the numeric status and the status text (src
line 205), a transport exists but its remote description is never
applied, the session is not Connected, the signaling POST of this
attempt was issued exactly once, and no attempt ever issues it more
than once — there is no automatic retry. -/
theorem c3_signaling_failure_terminal (env : Env) (k : Bool) (p : EphemeralPayload)
    (cs : ClientSecret) (stream : MediaStream)
    (hm : env.mediaResult = .ok stream)
    (hk : requestEphemeralKey k env = .ok p)
    (he : errTruthy p.error = false)
    (hcs : p.client_secret = some cs)
    (hfail : env.sdpResponse.ok = false) :
    (runAttempt env noCancel k).err =
      "Failed to get answer SDP: " ++ toString env.sdpResponse.status ++ " - " ++
        env.sdpResponse.statusText ∧
    (∃ pc, (runAttempt env noCancel k).pc = some pc ∧ pc.remoteDesc = none) ∧
    RtEvent.remoteDescSet ∉ (runAttempt env noCancel k).events ∧
    isConnected (runAttempt env noCancel k) = false ∧
    (runAttempt env noCancel k).sdpFetchCount = 1 ∧
    (∀ env2 sched k2, (runAttempt env2 sched k2).sdpFetchCount ≤ 1) := by
  refine ⟨?_, ?_, ?_, ?_, ?_, fun env2 sched k2 => sdpFetchCount_le_one env2 sched k2⟩ <;>
    unfold runAttempt startRealtime startRealtimeAfterGuard noCancel initialState <;>
    simp [hm, hk, he, hcs, hfail, isConnected, PeerConnection.fresh]

/-- C3 witness: the signaling endpoint answers 500 and the attempt ends
with the 500 error surfaced and no remote description applied. -/
theorem c3_signaling_failure_terminal_witness :
    (runAttempt env500 noCancel true).err =
      "Failed to get answer SDP: " ++ toString env500.sdpResponse.status ++ " - " ++
        env500.sdpResponse.statusText ∧
    (∃ pc, (runAttempt env500 noCancel true).pc = some pc ∧ pc.remoteDesc = none) ∧
    RtEvent.remoteDescSet ∉ (runAttempt env500 noCancel true).events ∧
    isConnected (runAttempt env500 noCancel true) = false ∧
    (runAttempt env500 noCancel true).sdpFetchCount = 1 ∧
    (∀ env2 sched k2, (runAttempt env2 sched k2).sdpFetchCount ≤ 1) :=
  c3_signaling_failure_terminal env500 true env500.injectedResult
    { value := "ek-500" } micStream rfl rfl rfl rfl (by decide)

/-- C4: the race-after-cancel guard claimed by the spec does not exist
in the code. If cancelChat runs while the credential acquisition is
pending, the late credential result still assigns a fresh
RTCPeerConnection to this.pc (src line 163 runs before the nulled
localStream is dereferenced at line 164), so a transport is created
after cancellation and the session does not stay Idle; and if
cancelChat runs while media acquisition is pending, the attempt
proceeds to a full connection afterwards. -/
theorem c4_cancel_race_transport_resurrected :
    (runAttempt envRace { duringMedia := false, duringKey := true } true).localStream = none ∧
    (runAttempt envRace { duringMedia := false, duringKey := true } true).pc ≠ none ∧
    RtEvent.pcCreated ∈
      (runAttempt envRace { duringMedia := false, duringKey := true } true).events ∧
    isConnected (runAttempt envRace { duringMedia := true, duringKey := false } true) = true := by
  decide

/-- C5 counterexample: the HTTP fallback answers 401 Unauthorized, and
the surfaced error carries only the status text — it contains no digit
at all, hence not the numeric status 401 the claim requires (src line
230 throws with statusText only). The attempt still ends in error with
no transport created. -/
theorem c5_fallback_status_counterexample :
    env401.fallbackResponse.status = 401 ∧
    (runAttempt env401 noCancel false).err =
      "Realtime error: Error - HTTP error: Unauthorized" ∧
    ((runAttempt env401 noCancel false).err.toList.filter Char.isDigit) = [] ∧
    (runAttempt env401 noCancel false).pc = none := by
  decide

/-- C5 amended: for every non-success response status from the HTTP
fallback credential endpoint, credential acquisition fails with an HTTP
failure error carrying the response status text (not the numeric
status), the connect attempt ends in Error with that failure surfaced,
and no transport is created. -/
theorem c5_fallback_statustext_amended (env : Env) (stream : MediaStream)
    (hm : env.mediaResult = .ok stream)
    (hfail : env.fallbackResponse.ok = false) :
    requestEphemeralKey false env =
      .error { name := "Error"
               message := "HTTP error: " ++ env.fallbackResponse.statusText } ∧
    (runAttempt env noCancel false).err =
      "Realtime error: Error - HTTP error: " ++ env.fallbackResponse.statusText ∧
    (runAttempt env noCancel false).pc = none ∧
    RtEvent.pcCreated ∉ (runAttempt env noCancel false).events ∧
    isConnected (runAttempt env noCancel false) = false := by
  refine ⟨by simp [requestEphemeralKey, hfail], ?_, ?_, ?_, ?_⟩ <;>
    unfold runAttempt startRealtime startRealtimeAfterGuard noCancel initialState <;>
    simp [hm, hfail, requestEphemeralKey, isConnected]
  rw [← String.append_assoc]
  congr 1

/-- C5 witness: the amended behaviour on the concrete 401 response. -/
theorem c5_fallback_statustext_amended_witness :
    requestEphemeralKey false env401 =
      .error { name := "Error"
               message := "HTTP error: " ++ env401.fallbackResponse.statusText } ∧
    (runAttempt env401 noCancel false).err =
      "Realtime error: Error - HTTP error: " ++ env401.fallbackResponse.statusText ∧
    (runAttempt env401 noCancel false).pc = none ∧
    RtEvent.pcCreated ∉ (runAttempt env401 noCancel false).events ∧
    isConnected (runAttempt env401 noCancel false) = false :=
  c5_fallback_statustext_amended env401 micStream rfl (by decide)

/-- C6: cancelChat is idempotent — invoked when no stream and no
transport are held it is exactly the identity (a no-op, never an
error); invoked twice in a row it yields the very same state as once;
and from any state it leaves the controller with neither stream nor
transport, the initial Idle configuration. -/
theorem c6_cancel_idempotent (st : ElementState) :
    (st.localStream = none ∧ st.pc = none → cancelChat st = st) ∧
    cancelChat (cancelChat st) = cancelChat st ∧
    (cancelChat st).localStream = none ∧ (cancelChat st).pc = none := by
  cases hls : st.localStream <;> cases hpc : st.pc <;>
    simp [cancelChat, hls, hpc]

/-- C6 witness: on the freshly constructed element, cancelChat is the
identity. -/
theorem c6_cancel_idempotent_witness :
    cancelChat (initialState true) = initialState true :=
  (c6_cancel_idempotent (initialState true)).1 ⟨rfl, rfl⟩

/-- C7: for every credential payload lacking an error field and
carrying a client_secret, the credential the session uses — the bearer
token of the signaling request — is exactly the payload's nested
client_secret.value (src lines 159 and 199); and the injected-function
strategy returns its function's result unmodified (src lines 222-224).
-/
theorem c7_secret_passthrough (env : Env) (k : Bool) (p : EphemeralPayload)
    (cs : ClientSecret) (stream : MediaStream)
    (hk : requestEphemeralKey k env = .ok p)
    (he : p.error = none)
    (hcs : p.client_secret = some cs)
    (hm : env.mediaResult = .ok stream) :
    (runAttempt env noCancel k).authHeader = some ("Bearer " ++ cs.value) ∧
    requestEphemeralKey true env = .ok env.injectedResult := by
  refine ⟨?_, rfl⟩
  unfold runAttempt startRealtime startRealtimeAfterGuard noCancel initialState
  simp [hm, hk, he, hcs, errTruthy]
  split <;> simp

/-- C7 witness: the concrete successful attempt authorizes with the
injected payload's exact secret. -/
theorem c7_secret_passthrough_witness :
    (runAttempt envSeq noCancel true).authHeader = some ("Bearer " ++ "ek-seq") ∧
    requestEphemeralKey true envSeq = .ok envSeq.injectedResult :=
  c7_secret_passthrough envSeq true envSeq.injectedResult
    { value := "ek-seq" } micStream rfl rfl rfl rfl

/-- C8 counterexample: on a held stream whose two audio tracks are in
mixed enabled states, toggleMute leaves them in mixed states — the
flags after are exactly the pointwise negations, not a lockstep state —
so there is no single resulting enabled boolean at all (and the JS
method returns undefined; only the button label, set from the last
track, is observable). -/
theorem c8_toggle_mixed_counterexample :
    stMixed.localStream.isSome = true ∧
    audioFlags ((toggleMute stMixed "Mute").1.localStream.getD { tracks := [] }) =
      [false, true] ∧
    ¬ (∃ e : Bool,
        uniformEnabled ((toggleMute stMixed "Mute").1.localStream.getD { tracks := [] }) e) := by
  decide

/-- C8 amended: toggleMute is a no-op when no stream is held; on a held
stream it negates every audio track's enabled flag individually and
preserves the track count, so tracks that were uniformly enabled or
disabled stay in lockstep and the mute-button label is written from the
resulting state (Mute when unmuted); and toggling twice restores the
held stream — every original enabled flag and the original track count
— exactly. -/
theorem c8_toggle_mute_amended (st : ElementState) (btn : String) :
    (st.localStream = none → toggleMute st btn = (st, btn)) ∧
    (∀ s, st.localStream = some s →
      (toggleMute st btn).1.localStream = some { tracks := flipAudio s.tracks } ∧
      audioFlags { tracks := flipAudio s.tracks } = (audioFlags s).map (fun b => !b) ∧
      (flipAudio s.tracks).length = s.tracks.length ∧
      (∀ e, uniformEnabled s e →
        uniformEnabled { tracks := flipAudio s.tracks } (!e) ∧
        (s.getAudioTracks ≠ [] →
          (toggleMute st btn).2 = if e then "Unmute" else "Mute"))) ∧
    (∀ b2, ((toggleMute (toggleMute st btn).1 b2).1).localStream = st.localStream) := by
  refine ⟨?_, ?_, ?_⟩
  · intro h
    simp [toggleMute, h]
  · intro s hs
    refine ⟨by simp [toggleMute, hs], audioFlags_flip s.tracks, flipAudio_length s.tracks, ?_⟩
    intro e hu
    refine ⟨uniformEnabled_flip s e hu, ?_⟩
    intro hne
    have hne2 : (flipAudio s.tracks).filter (fun t => t.kind == "audio") ≠ [] := by
      rw [flipAudio_filter]
      simpa [MediaStream.getAudioTracks, List.map_eq_nil_iff] using hne
    have hu2 : ∀ t ∈ (flipAudio s.tracks).filter (fun t => t.kind == "audio"),
        t.enabled = !e := uniformEnabled_flip s e hu
    have hl := muteLabel_uniform (flipAudio s.tracks) btn (!e) hne2 hu2
    simp [toggleMute, hs, hl]
    cases e <;> simp
  · intro b2
    cases hs : st.localStream with
    | none => simp [toggleMute, hs]
    | some s => simp [toggleMute, hs, flipAudio_involution]

/-- C8 witness: toggleMute is the identity on a stream-less element,
and toggling the held microphone stream twice restores it. -/
theorem c8_toggle_mute_amended_witness :
    toggleMute (initialState false) "Mute" = (initialState false, "Mute") ∧
    ((toggleMute (toggleMute stMic "Mute").1 "Mute").1).localStream = stMic.localStream :=
  ⟨(c8_toggle_mute_amended (initialState false) "Mute").1 rfl,
   (c8_toggle_mute_amended stMic "Mute").2.2 "Mute"⟩

/-- C9: a non-JSON control-channel message never raises past the decode
boundary — the handler only appends the raw text verbatim to the log
and leaves transcript, stream and transport untouched (src lines
185-187) — and each decoded response.text.delta message appends its
delta to the transcript in arrival order, so two successive hello
deltas yield the transcript hellohello. -/
theorem c9_decode_boundary_and_delta (st : ElementState) (raw r1 r2 : String) :
    dcOnMessage none raw st =
      { st with log := st.log ++ "Received non-JSON message: " ++ raw ++ "\n" } ∧
    (dcOnMessage none raw st).transcript = st.transcript ∧
    (dcOnMessage none raw st).pc = st.pc ∧
    (dcOnMessage none raw st).localStream = st.localStream ∧
    (dcOnMessage (some helloDelta) r2 (dcOnMessage (some helloDelta) r1 st)).transcript =
      st.transcript ++ "hello" ++ "hello" ∧
    (dcOnMessage (some helloDelta) "" (dcOnMessage (some helloDelta) ""
      (initialState true))).transcript = "hellohello" := by
  refine ⟨rfl, rfl, rfl, rfl, ?_, rfl⟩
  simp [dcOnMessage, helloDelta, errTruthy, updateTranscript]

/-- C10: for every credential payload lacking both the error field and
the client_secret field, the unguarded access client_secret.value at
src line 159 throws, the surrounding catch surfaces the TypeError on
the error sink, no transport is created and the session never reaches
Connected. -/
theorem c10_missing_secret_aborts (env : Env) (k : Bool) (p : EphemeralPayload)
    (stream : MediaStream)
    (hk : requestEphemeralKey k env = .ok p)
    (he : p.error = none) (hcs : p.client_secret = none)
    (hm : env.mediaResult = .ok stream) :
    (runAttempt env noCancel k).err = "Realtime error: TypeError - " ++ undefinedValueMsg ∧
    (runAttempt env noCancel k).pc = none ∧
    RtEvent.pcCreated ∉ (runAttempt env noCancel k).events ∧
    isConnected (runAttempt env noCancel k) = false := by
  unfold runAttempt startRealtime startRealtimeAfterGuard noCancel initialState
  simp [hm, hk, he, hcs, errTruthy, isConnected]

/-- C10 witness: the concrete payload with neither error nor
client_secret aborts the attempt with the surfaced TypeError and no
transport. -/
theorem c10_missing_secret_aborts_witness :
    (runAttempt envNoSecret noCancel true).err =
      "Realtime error: TypeError - " ++ undefinedValueMsg ∧
    (runAttempt envNoSecret noCancel true).pc = none ∧
    RtEvent.pcCreated ∉ (runAttempt envNoSecret noCancel true).events ∧
    isConnected (runAttempt envNoSecret noCancel true) = false :=
  c10_missing_secret_aborts envNoSecret true envNoSecret.injectedResult
    micStream rfl rfl rfl rfl
